import Mathlib

/-!
Verification of the mojo-errors enhanced-traceback subsystem
(`source/packages/mojo/errors/xtraceback.py` and
`source/packages/mojo/errors/raising.py`) against its natural-language
specification.

The Python code is shallowly embedded: live interpreter state (call frames,
exception instances, attribute dictionaries, module attributes) is made
explicit as data passed to the Lean functions, and each Lean definition
mirrors one Python function of the source, keeping its name where possible.
Python operations that can raise are modelled with `Except`; Python ints are
modelled with `Int`.
-/

namespace MojoErrors

/-! ## Python exception kinds relevant to the model

`hasattr` in Python 3 silently swallows only `AttributeError`; every other
exception raised by an attribute probe propagates.  The value-renderer code
in `create_traceback_detail` (xtraceback.py lines 307-328) distinguishes
exactly these two situations, so the model does too. -/

inductive PyExc where
  | attributeError
  | otherError
deriving DecidableEq, Repr

/-- xtraceback.py line 30: `ARG_ERROR = "<error>"`. -/
def ARG_ERROR : String := "<error>"

/-- Equality of `Except` outcomes is decidable componentwise (needed so the
concrete counterexamples below can be checked by `decide`). -/
def exceptDecEq {ε α : Type} [DecidableEq ε] [DecidableEq α] :
    DecidableEq (Except ε α) := fun a b =>
  match a, b with
  | Except.ok x, Except.ok y =>
      if h : x = y then Decidable.isTrue (congrArg Except.ok h)
      else Decidable.isFalse (fun hc => h (Except.ok.inj hc))
  | Except.error x, Except.error y =>
      if h : x = y then Decidable.isTrue (congrArg Except.error h)
      else Decidable.isFalse (fun hc => h (Except.error.inj hc))
  | Except.ok _, Except.error _ => Decidable.isFalse (fun hc => Except.noConfusion hc)
  | Except.error _, Except.ok _ => Decidable.isFalse (fun hc => Except.noConfusion hc)

instance {ε α : Type} [DecidableEq ε] [DecidableEq α] : DecidableEq (Except ε α) :=
  exceptDecEq

/-! ## Captured Python values

A captured argument value is characterised by the three observations the
renderer loop can make of it:
* `monikerAttr`: the outcome of probing `aval.moniker` — `none` when the
  attribute does not exist, `some (.error e)` when the attribute access
  raises `e`, `some (.ok s)` when it yields the string `s`;
* `reprResult`: the outcome of `repr(aval)`;
* `typeStr`: the (total) rendering of `type(aval)` used by the fallback
  f-string `f"<{type(aval)}>"`. -/

structure PyValue where
  monikerAttr : Option (Except PyExc String)
  reprResult : Except PyExc String
  typeStr : String
deriving DecidableEq, Repr

/-- Python `hasattr(aval, "moniker")`: catches only `AttributeError`;
any other exception raised by the attribute lookup propagates. -/
def py_hasattr_moniker (v : PyValue) : Except PyExc Bool :=
  match v.monikerAttr with
  | none => Except.ok false
  | some (Except.error PyExc.attributeError) => Except.ok false
  | some (Except.error e) => Except.error e
  | some (Except.ok _) => Except.ok true

/-- Python `aval.moniker` (only evaluated after `hasattr` returned true). -/
def py_getattr_moniker (v : PyValue) : Except PyExc String :=
  match v.monikerAttr with
  | some r => r
  | none => Except.error PyExc.attributeError

/-- The body of the outer `try` of the renderer loop
(xtraceback.py lines 311-318): probe for a moniker; otherwise
`repr` guarded by an inner bare `except` whose handler substitutes
`f"<{type(aval)}>"`. -/
def render_attempt (v : PyValue) : Except PyExc String :=
  match py_hasattr_moniker v with
  | Except.error e => Except.error e
  | Except.ok true => py_getattr_moniker v
  | Except.ok false =>
      match v.reprResult with
      | Except.ok s => Except.ok s
      | Except.error _ => Except.ok ("<" ++ v.typeStr ++ ">")

/-- xtraceback.py lines 309-323: `arep` starts as `ARG_ERROR` and the outer
bare `except: pass` leaves it there when the attempt raises. -/
def render_arg_value (v : PyValue) : String :=
  match render_attempt v with
  | Except.ok s => s
  | Except.error _ => ARG_ERROR

/-- Refinement target for the amended C6 claim, written from the amended
spec wording rather than from the control flow of the source: the moniker
is used when present and readable; a moniker probe that raises a
non-`AttributeError` yields the fixed `ARG_ERROR` sentinel (it does not
fall through to `repr`); otherwise `repr` is attempted, with the type-name
string as its failure fallback. -/
def render_arg_value_described (v : PyValue) : String :=
  match v.monikerAttr with
  | some (Except.ok s) => s
  | some (Except.error PyExc.otherError) => ARG_ERROR
  | some (Except.error PyExc.attributeError) =>
      match v.reprResult with
      | Except.ok s => s
      | Except.error _ => "<" ++ v.typeStr ++ ">"
  | none =>
      match v.reprResult with
      | Except.ok s => s
      | Except.error _ => "<" ++ v.typeStr ++ ">"

/-! ## Modules and raw stack frames

`inspect.getmodule(tb_code)` either fails (`None`) or yields a module whose
only observation made by this code is its optional
`__traceback_format_policy__` attribute (xtraceback.py lines 293-297). -/

structure ModuleInfo where
  trace_policy : Option String
deriving DecidableEq, Repr

/-- One raw interpreter frame paired with the data the collection loop in
`collect_stack_frames` (xtraceback.py lines 225-268) extracts from it:
`f_code.co_name`, `f_code.co_filename`, whether `os.path.exists` holds of
that filename, the traceback line number, the outcome of
`inspect.getsourcelines(tb_code)` (result lines and start line, or the
exception it raises), the declared parameter names
(`co_varnames[:co_argcount]`), the surviving locals `f_locals`, and the
`inspect.getmodule` result. -/
structure RawFrame where
  co_name : String
  co_filename : String
  file_exists : Bool
  tb_lineno : Int
  getsource : Except String (List String × Int)
  arg_names : List String
  f_locals : List (String × PyValue)
  co_module : Option ModuleInfo
deriving DecidableEq, Repr

/-- The ancestry loop of `collect_stack_frames` (xtraceback.py lines
208-211): `traceback.walk_stack(calling_frame)` yields the calling frame
first and then each `f_back` ancestor; every yielded frame is collected and
the loop breaks after (inclusively) collecting the first frame named
`"<module>"`.  The input list is the `f_back` chain starting at the calling
frame; the result is the prefix taken, in walk order. -/
def takeThroughModule : List RawFrame → List RawFrame
  | [] => []
  | f :: rest =>
      if f.co_name = "<module>" then [f] else f :: takeThroughModule rest

/-- The merge step of `collect_stack_frames` (xtraceback.py lines 206-221):
the ancestry walk `insert(0, ...)`s each yielded frame (so the collected
`context_frames` list is the walk prefix reversed), then `pop()` removes
its last element, the exception's own traceback frames
(`traceback.walk_tb`, raise-to-handler order reversed: the walk yields the
handler-side frame first and the raise point last) are appended, and the
combined list is reversed.  `tbFrames` is given in `walk_tb` order
(outermost handled frame first, raise point last). -/
def collect_stack_frames_order (stackChain tbFrames : List RawFrame) : List RawFrame :=
  let context_frames := ((takeThroughModule stackChain).reverse).dropLast
  (context_frames ++ tbFrames).reverse

/-! ## Per-frame introspection (`collect_stack_frames`, lines 225-268) -/

/-- The normalized frame record built per raw frame: the `FrameDetail`
dataclass of xtraceback.py lines 56-70 (the `co_code` member, unread by the
rest of the module, is not modelled). -/
structure FrameDetail where
  name : String
  line_no : Int
  line_code : String
  filename : String
  co_module : Option ModuleInfo
  args : List (String × PyValue)
  first_line : Option Int
  last_line : Option Int
  code_lines : Option (List String)
deriving DecidableEq, Repr

/-- The `PyValue` of the Python `str` `"<not found>"` substituted at
xtraceback.py line 244 when a parameter no longer survives in `f_locals`:
a plain string has no `moniker` attribute and its `repr` succeeds. -/
def NOT_FOUND_VALUE : PyValue :=
  { monikerAttr := none
    reprResult := Except.ok "\x27<not found>\x27"
    typeStr := "<class \x27str\x27>" }

/-- xtraceback.py lines 234-244: walk the declared parameter names and take
each value from the surviving locals, substituting `"<not found>"` for ones
the runtime already discarded. -/
def collect_code_args (f : RawFrame) : List (String × PyValue) :=
  f.arg_names.map fun n =>
    match List.lookup n f.f_locals with
    | some v => (n, v)
    | none => (n, NOT_FOUND_VALUE)

/-- Python `str.endswith` (written over the character lists so that it
evaluates inside the kernel). -/
def pyEndsWith (s suffix : String) : Bool :=
  List.isSuffixOf suffix.toList s.toList

/-- Python `str.rstrip()` restricted to its whitespace default. -/
def pyRstrip (s : String) : String :=
  String.mk ((s.toList.reverse.dropWhile Char.isWhitespace).reverse)

/-- Python `str.strip()` restricted to its whitespace default. -/
def pyStrip (s : String) : String :=
  String.mk (((s.toList.dropWhile Char.isWhitespace).reverse.dropWhile
    Char.isWhitespace).reverse)

/-- Python `str.zfill` for the non-negative strings produced here. -/
def zfill (s : String) (w : Nat) : String :=
  if s.length < w then String.mk (List.replicate (w - s.length) '0') ++ s else s

/-- Python list subscription `l[i]` with an `int` index: non-negative
indices address from the front, negative ones from the back, anything
out of range raises `IndexError`. -/
def pyListGet (l : List String) (i : Int) : Except String String :=
  if 0 ≤ i then
    match l.get? i.toNat with
    | some x => Except.ok x
    | none => Except.error "IndexError"
  else if 0 ≤ i + l.length then
    match l.get? (i + l.length).toNat with
    | some x => Except.ok x
    | none => Except.error "IndexError"
  else Except.error "IndexError"

/-- xtraceback.py lines 256-262: number the retrieved source lines,
zero-filling each line number to the width of the final line number. -/
def format_code_lines (code_lines : List String) (code_startline : Int) : List String :=
  let code_lastline := code_startline + code_lines.length
  let fmt_len := (toString code_lastline).length
  code_lines.enum.map fun p =>
    zfill (toString (code_startline + p.1)) fmt_len ++ ": " ++ pyRstrip p.2

/-- The body of the detail loop of `collect_stack_frames` for one frame
(xtraceback.py lines 225-268).  `fmt_prev` is the value of the
function-scoped local `fmt_code_lines` left over from earlier iterations:
the source initializes `code_lines`, `code_startline`, `code_lastline` and
`trace_line` at the top of each iteration (lines 246-249) but assigns
`fmt_code_lines` only inside the source-retrieval branch (line 258), while
line 267 reads it unconditionally — so when the branch is not taken the
`FrameDetail` receives the previous iteration's list, and on the first such
iteration the read raises `NameError`.  `inspect.getsourcelines` failures
(line 252) and an out-of-range `code_lines[trace_line_index]` (line 265)
propagate. -/
def process_frame (f : RawFrame) (fmt_prev : Option (List String)) :
    Except String (FrameDetail × Option (List String)) :=
  let code_args := collect_code_args f
  if f.co_name ≠ "<module>" ∧ f.file_exists = true ∧ pyEndsWith f.co_filename ".py" then
    match f.getsource with
    | Except.error e => Except.error e
    | Except.ok (code_lines, code_startline) =>
        if code_lines.length > 0 then
          let code_lastline := code_startline + code_lines.length
          let fmt_code_lines := format_code_lines code_lines code_startline
          match pyListGet code_lines (f.tb_lineno - code_startline) with
          | Except.error e => Except.error e
          | Except.ok raw_line =>
              Except.ok
                ({ name := f.co_name, line_no := f.tb_lineno
                   line_code := pyStrip raw_line, filename := f.co_filename
                   co_module := f.co_module, args := code_args
                   first_line := some code_startline
                   last_line := some code_lastline
                   code_lines := some fmt_code_lines }, some fmt_code_lines)
        else
          match fmt_prev with
          | none => Except.error "NameError"
          | some stale =>
              Except.ok
                ({ name := f.co_name, line_no := f.tb_lineno
                   line_code := "<obfuscated>", filename := f.co_filename
                   co_module := f.co_module, args := code_args
                   first_line := some code_startline, last_line := none
                   code_lines := some stale }, some stale)
  else
    match fmt_prev with
    | none => Except.error "NameError"
    | some stale =>
        Except.ok
          ({ name := f.co_name, line_no := f.tb_lineno
             line_code := "<obfuscated>", filename := f.co_filename
             co_module := f.co_module, args := code_args
             first_line := none, last_line := none
             code_lines := some stale }, some stale)

/-- The detail loop over the merged frame sequence: the first raised
exception aborts the whole collection (no handler surrounds the loop in
the source). -/
def process_frames : List RawFrame → Option (List String) →
    Except String (List FrameDetail)
  | [], _ => Except.ok []
  | f :: rest, fmt_prev =>
      match process_frame f fmt_prev with
      | Except.error e => Except.error e
      | Except.ok (fd, fmt') =>
          match process_frames rest fmt' with
          | Except.error e => Except.error e
          | Except.ok fds => Except.ok (fd :: fds)

/-- `collect_stack_frames(calling_frame, ex_inst)` (xtraceback.py lines
201-270): merge the two walks, then build one `FrameDetail` per frame.
`stackChain` is the `f_back` chain from the calling frame outward;
`tbFrames` is `ex_inst.__traceback__` in `walk_tb` order. -/
def collect_stack_frames (stackChain tbFrames : List RawFrame) :
    Except String (List FrameDetail) :=
  process_frames (collect_stack_frames_order stackChain tbFrames) none

/-! ## Verbosity policy and the trace builder
(`create_traceback_detail`, xtraceback.py lines 273-346) -/

namespace TracebackFormatPolicy

/-- xtraceback.py line 38. -/
def Brief : String := "Brief"

/-- xtraceback.py line 39. -/
def Full : String := "Full"

/-- xtraceback.py line 40. -/
def Hide : String := "Hide"

end TracebackFormatPolicy

/-- xtraceback.py lines 42-46. -/
def VALID_MEMBER_TRACE_POLICY : List String :=
  [TracebackFormatPolicy.Brief, TracebackFormatPolicy.Full, TracebackFormatPolicy.Hide]

/-- The mutable `TRACEBACK_CONFIG` globals (xtraceback.py lines 50-53) as
read at the top of one `create_traceback_detail` run. -/
structure TbConfig where
  policy_override : Option String
  max_full_display : Int
  expand_first_n : Int
deriving DecidableEq, Repr

/-- A context dictionary `{scope name ↦ {"label": ..., "content": ...}}`
as stored by `EnhancedErrorMixIn.add_context` (xtraceback.py lines
193-196). -/
structure ContextVal where
  label : String
  content : String
deriving DecidableEq, Repr

/-- An insertion-ordered Python dict from scope names to context values. -/
abbrev CtxDict := List (String × ContextVal)

/-- The exception instance as observed by `create_traceback_detail`: its
type name, the `repr`s of its `args` tuple, and its readable attributes
(instance and class ones alike) that hold context dictionaries.  The
builder probes only the attribute named `"context"` (line 304); the mixin
machinery writes `"_contexts"` / exposes the `"contexts"` property. -/
structure ExInst where
  type_name : String
  args_repr : List String
  attrs : List (String × CtxDict)
deriving DecidableEq, Repr

/-- The per-frame policy resolution of xtraceback.py lines 289-299: default
`Brief`, upgraded to `Full` while both budget counters are positive; a
module-declared `__traceback_format_policy__` wins when no global override
is set and its value is one of the three valid names; a global override
wins unconditionally (whatever string it holds). -/
def resolve_policy (override : Option String) (co_module : Option ModuleInfo)
    (max_full_display expand_first_n : Int) : String :=
  let base :=
    if expand_first_n > 0 ∧ max_full_display > 0 then TracebackFormatPolicy.Full
    else TracebackFormatPolicy.Brief
  match override with
  | some ov => ov
  | none =>
      match co_module with
      | none => base
      | some m =>
          match m.trace_policy with
          | some cand =>
              if cand ∈ VALID_MEMBER_TRACE_POLICY then cand else base
          | none => base

/-- xtraceback.py lines 303-305: `nt_context` is populated only when the
instance exposes an attribute literally named `"context"` that maps the
frame's scope name. -/
def frame_context (ex : ExInst) (scope : String) : Option ContextVal :=
  match List.lookup "context" ex.attrs with
  | none => none
  | some d => List.lookup scope d

/-- The `OriginDetail` dataclass (xtraceback.py lines 73-77). -/
structure OriginDetail where
  file : String
  lineno : Int
  scope : String
deriving DecidableEq, Repr

/-- The `TraceDetail` dataclass (xtraceback.py lines 80-85). -/
structure TraceDetail where
  origin : OriginDetail
  call : String
  code : List String
  trace_context : Option ContextVal
deriving DecidableEq, Repr

/-- The `TracebackDetail` dataclass (xtraceback.py lines 87-91). -/
structure TracebackDetail where
  extype : String
  exargs : List String
  traces : List TraceDetail
deriving DecidableEq, Repr

/-- xtraceback.py lines 307-330: render every declared argument through the
value renderer and join them into the call signature
`name(arg=value, ...)`. -/
def render_call (f : FrameDetail) : String :=
  f.name ++ "(" ++
    String.intercalate ", " (f.args.map fun p => p.1 ++ "=" ++ render_arg_value p.2)
    ++ ")"

/-- One iteration of the builder loop (xtraceback.py lines 286-342),
returning the built `TraceDetail` and the two budget counters after the
iteration.  Both counters are decremented exactly when the resolved policy
is `Full` and the frame carries source lines (lines 333-338). -/
def build_trace_step (override : Option String) (ex : ExInst) (f : FrameDetail)
    (max_full_display expand_first_n : Int) : TraceDetail × Int × Int :=
  let policy := resolve_policy override f.co_module max_full_display expand_first_n
  let ntorigin : OriginDetail :=
    { file := f.filename, lineno := f.line_no, scope := f.name }
  let nt_context := frame_context ex f.name
  let ntcall := render_call f
  if policy = TracebackFormatPolicy.Full then
    match f.code_lines with
    | some ls =>
        ({ origin := ntorigin, call := ntcall, code := ls, trace_context := nt_context },
          max_full_display - 1, expand_first_n - 1)
    | none =>
        ({ origin := ntorigin, call := ntcall, code := [], trace_context := nt_context },
          max_full_display, expand_first_n)
  else
    ({ origin := ntorigin, call := ntcall, code := [], trace_context := nt_context },
      max_full_display, expand_first_n)

/-- The builder loop folded over the collected frames, also recording the
value of `max_full_display` after each iteration (for the budget
invariant). -/
def build_traces (override : Option String) (ex : ExInst) :
    List FrameDetail → Int → Int → List TraceDetail × List Int
  | [], _, _ => ([], [])
  | f :: rest, m, e =>
      let step := build_trace_step override ex f m e
      let tail := build_traces override ex rest step.2.1 step.2.2
      (step.1 :: tail.1, step.2.1 :: tail.2)

/-- `create_traceback_detail(ex_inst)` (xtraceback.py lines 273-346), taking
the already-collected frame sequence as input (the collection itself is
`collect_stack_frames` above): one `TraceDetail` is appended per collected
frame, unconditionally. -/
def create_traceback_detail (cfg : TbConfig) (ex : ExInst)
    (stack_frames : List FrameDetail) : TracebackDetail :=
  { extype := ex.type_name, exargs := ex.args_repr
    traces :=
      (build_traces cfg.policy_override ex stack_frames
        cfg.max_full_display cfg.expand_first_n).1 }

/-- The successive values of the `max_full_display` counter across one
build, one entry per processed frame. -/
def budget_trace (cfg : TbConfig) (ex : ExInst)
    (stack_frames : List FrameDetail) : List Int :=
  (build_traces cfg.policy_override ex stack_frames
    cfg.max_full_display cfg.expand_first_n).2

/-! ## The renderer (`format_traceback_detail`, xtraceback.py lines 389-412) -/

/-- The lines contributed by one `TraceDetail`: the `File` line always, the
`Call` line when the call string is non-empty, a blank line plus the
indented numbered source lines when present, and a trailing blank
separator. -/
def format_frame_lines (nt : TraceDetail) : List String :=
  ("  File " ++ nt.origin.file ++ ", line " ++ toString nt.origin.lineno
      ++ ", in " ++ nt.origin.scope)
  :: ((if nt.call.length > 0 then
        ("    Call " ++ nt.call)
          :: (if nt.code.length > 0 then
                "" :: nt.code.map (fun l => "    " ++ l)
              else [])
      else []) ++ [""])

/-- `format_traceback_detail(tbdetail)`: header naming the error type and
its comma-joined argument representations, the fixed banner, then the
per-frame blocks. -/
def format_traceback_detail (tb : TracebackDetail) : List String :=
  (tb.extype ++ ": " ++ String.intercalate "," tb.exargs)
  :: "Traceback (most recent call first):"
  :: (tb.traces.map format_frame_lines).flatten

/-! ## `enhance_exception` and the mixin (`xtraceback.py` lines 176-198
and 349-369)

The observable state is the exception instance's type (its `__bases__`
list of class names) together with the instance's attribute dictionary.
In Python the `__bases__` mutation and the `setattr` persist even when a
later statement raises, so the model returns the final state paired with
the exception raised, if any. -/

/-- The class injected into `__bases__` (xtraceback.py line 360). -/
def ENHANCED_ERROR_MIXIN : String := "EnhancedErrorMixIn"

/-- The mutable shape of one exception instance: the `__bases__` of its
type, and its readable attributes holding context dictionaries. -/
structure ExcState where
  type_bases : List String
  attrs : List (String × CtxDict)
deriving DecidableEq, Repr

/-- Update (or insert) one key of an insertion-ordered association list,
the way Python dict assignment and `setattr` behave. -/
def set_assoc {β : Type} : List (String × β) → String → β → List (String × β)
  | [], n, v => [(n, v)]
  | (k, w) :: rest, n, v =>
      if k = n then (n, v) :: rest else (k, w) :: set_assoc rest n v

/-- `setattr` on the modelled instance. -/
def py_setattr (st : ExcState) (name : String) (v : CtxDict) : ExcState :=
  { st with attrs := set_assoc st.attrs name v }

/-- `EnhancedErrorMixIn.add_context` (xtraceback.py lines 185-198) as
invoked on a dynamically widened instance: `self._contexts[caller] = ...`
first reads the `_contexts` attribute, which raises `AttributeError` when
the instance never went through the mixin's `__init__`. -/
def add_context (st : ExcState) (caller_func_name content label : String) :
    ExcState × Option String :=
  match List.lookup "_contexts" st.attrs with
  | none => (st, some "AttributeError")
  | some d =>
      (py_setattr st "_contexts" (set_assoc d caller_func_name
        { label := label, content := content }), none)

/-- `enhance_exception(xcpt, content, label)` (xtraceback.py lines
349-369): append `EnhancedErrorMixIn` to the type's `__bases__` when
absent, initialize an attribute named `_context` (no final `s`) when
absent, then call `add_context`.  `caller_func_name` stands for the scope
name `inspect.stack()[2]` resolves inside `add_context`. -/
def enhance_exception (st : ExcState) (caller_func_name content label : String) :
    ExcState × Option String :=
  let st1 :=
    if ENHANCED_ERROR_MIXIN ∈ st.type_bases then st
    else { st with type_bases := st.type_bases ++ [ENHANCED_ERROR_MIXIN] }
  let st2 :=
    if (List.lookup "_context" st1.attrs).isSome then st1
    else py_setattr st1 "_context" []
  add_context st2 caller_func_name content label

/-! ## `raising.py`: the HTTP-status-to-error-kind helper

Error kinds are identified by the class names of `exceptions.py`. -/

/-- `STATUS_TO_EXCEPTION_TABLE` (raising.py lines 11-61). -/
def STATUS_TO_EXCEPTION_TABLE : List (Int × String) :=
  [ (300, "HttpRedirectMultipleChoicesError")
  , (301, "HttpRedirectMovedPermanentlyError")
  , (302, "HttpRedirectMovedTemporarilyError")
  , (303, "HttpRedirectSeeOtherError")
  , (304, "HttpRedirectNotModifiedError")
  , (305, "HttpRedirectUseProxyError")
  , (306, "HttpRedirectSwitchProxyError")
  , (307, "HttpRedirectTemporaryError")
  , (308, "HttpRedirectPermanentError")
  , (400, "HttpBadRequestError")
  , (401, "HttpUnAuthorizedError")
  , (402, "HttpPaymentRequiredError")
  , (403, "HttpForbiddenError")
  , (404, "HttpNotFoundError")
  , (405, "HttpMethodNotAllowedError")
  , (406, "HttpNotAcceptableError")
  , (407, "HttpProxyAuthenticationRequiredError")
  , (408, "HttpRequestTimeoutError")
  , (409, "HttpConflictError")
  , (410, "HttpGoneError")
  , (411, "HttpLengthRequiredError")
  , (412, "HttpPreconditionRequiredError")
  , (413, "HttpPayloadTooLargeError")
  , (414, "HttpUriTooLongError")
  , (415, "HttpUnSupportedMediaTypeError")
  , (416, "HttpRangeNotSatisfiableError")
  , (417, "HttpExpectationFailedError")
  , (418, "HttpImATeapotError")
  , (421, "HttpMisdirectedRequestError")
  , (422, "HttpUnprocessableContentError")
  , (423, "HttpLockedError")
  , (424, "HttpFailedDependencyError")
  , (425, "HttpTooEarlyError")
  , (426, "HttpUpgradeRequiredError")
  , (428, "HttpPreconditionRequiredError")
  , (429, "HttpTooManyRequestsError")
  , (431, "HttpHeaderFieldsTooLargeError")
  , (451, "HttpUnavailableForLegalReasonsError")
  , (500, "HttpInternalServerError")
  , (501, "HttpNotImplementedError")
  , (502, "HttpBadGatewayError")
  , (503, "HttpServiceUnavailableError")
  , (504, "HttpGatewayTimeoutError")
  , (505, "HttpVersionNotSupportedError")
  , (506, "HttpCircularReferenceError")
  , (507, "HttpInsufficientStorageError")
  , (508, "HttpLoopDetectedError")
  , (510, "HttpNotExtendedError")
  , (511, "HttpNetworkAuthenticationRequiredError") ]

/-- `os.linesep.join` (modelled with the Unix line separator). -/
def join_linesep : List String → String
  | [] => ""
  | [l] => l
  | l :: rest => l ++ "\n" ++ join_linesep rest

/-- `format_http_error_message` (raising.py lines 64-78). -/
def format_http_error_message (resp_code : Int) (resp_msg : String)
    (url context : Option String) : String :=
  join_linesep
    (("HTTP Error: code=" ++ toString resp_code ++ " message=" ++ resp_msg ++ ".")
      :: ((match url with
           | some u => ["URL: " ++ u]
           | none => [])
        ++ (match context with
            | some c => ["CONTEXT: " ++ c]
            | none => [])))

/-- `raise_for_http_status` (raising.py lines 81-99): return normally below
300, otherwise raise the mapped error kind (table first, then the range
fallbacks, then bare `HTTPException`) carrying the formatted message. -/
def raise_for_http_status (resp_code : Int) (resp_msg : String)
    (url context : Option String) : Except (String × String) Unit :=
  if resp_code ≥ 300 then
    let error_type :=
      match List.lookup resp_code STATUS_TO_EXCEPTION_TABLE with
      | some t => t
      | none =>
          if resp_code ≥ 300 ∧ resp_code ≤ 399 then "HttpResponse3xxError"
          else if resp_code ≥ 400 ∧ resp_code ≤ 499 then "HttpResponse4xxError"
          else if resp_code ≥ 500 ∧ resp_code ≤ 599 then "HttpResponse5xxError"
          else "HTTPException"
    Except.error (error_type, format_http_error_message resp_code resp_msg url context)
  else Except.ok ()

/-! ## Concrete fixtures

A small scenario mirroring the test suite: module scope calls `a`, `a`
calls `b`, `b` calls `c`, `c` raises; the error is handled in `a` (so the
exception's traceback holds `a`, `b`, `c`), and `a` may call a helper `h`
that performs the formatting. -/

/-- Module-scope frame of the scenario. -/
def frMod : RawFrame :=
  { co_name := "<module>", co_filename := "/repo/t.py", file_exists := true
    tb_lineno := 3, getsource := Except.ok (["import t"], 1)
    arg_names := [], f_locals := [], co_module := none }

/-- Frame of function `a` (the handler). -/
def frA : RawFrame :=
  { co_name := "a", co_filename := "/repo/t.py", file_exists := true
    tb_lineno := 10, getsource := Except.ok (["def a():", "    b()"], 9)
    arg_names := [], f_locals := [], co_module := none }

/-- Frame of function `b`. -/
def frB : RawFrame :=
  { co_name := "b", co_filename := "/repo/t.py", file_exists := true
    tb_lineno := 20, getsource := Except.ok (["def b():", "    c()"], 19)
    arg_names := [], f_locals := [], co_module := none }

/-- Frame of function `c` (the raise point). -/
def frC : RawFrame :=
  { co_name := "c", co_filename := "/repo/t.py", file_exists := true
    tb_lineno := 30, getsource := Except.ok (["def c():", "    raise TestError(m)"], 29)
    arg_names := [], f_locals := [], co_module := none }

/-- Frame of a formatting helper `h` called by the handler. -/
def frH : RawFrame :=
  { co_name := "h", co_filename := "/repo/t.py", file_exists := true
    tb_lineno := 40, getsource := Except.ok (["def h():", "    fmt(e)"], 39)
    arg_names := [], f_locals := [], co_module := none }

/-- A raise-point frame whose code has no on-disk source file. -/
def frStdin : RawFrame :=
  { co_name := "c2", co_filename := "<stdin>", file_exists := false
    tb_lineno := 1, getsource := Except.ok ([], 1)
    arg_names := [], f_locals := [], co_module := none }

/-- A frame whose file exists but whose source retrieval raises `OSError`
(`inspect.getsourcelines` on a stale or rewritten file). -/
def frSrcFail : RawFrame :=
  { co_name := "g", co_filename := "/repo/g.py", file_exists := true
    tb_lineno := 7, getsource := Except.error "OSError"
    arg_names := [], f_locals := [], co_module := none }

/-- A built frame detail for the raise point `c`. -/
def fdC : FrameDetail :=
  { name := "c", line_no := 30, line_code := "raise TestError(m)"
    filename := "/repo/t.py", co_module := none, args := []
    first_line := some 29, last_line := some 31
    code_lines := some ["29: def c():", "30:     raise TestError(m)"] }

/-- An exception instance as the test scenario: the `TestError` carrying
one argument, annotated (per the mixin design) under scope `"f"`. -/
def exAnnotated : ExInst :=
  { type_name := "TestError", args_repr := ["boom"]
    attrs :=
      [ ("_contexts", [("f", { label := "NOTE", content := "extra info" })])
      , ("contexts", [("f", { label := "NOTE", content := "extra info" })]) ] }

/-- A captured value whose `moniker` property raises an exception other
than `AttributeError` (for example a remote proxy whose connection died),
although its `repr` would have succeeded. -/
def vMonikerRaises : PyValue :=
  { monikerAttr := some (Except.error PyExc.otherError)
    reprResult := Except.ok "sentinel-repr", typeStr := "class T" }

/-- The policy a frame's owning module declares, if any: the value of its
`__traceback_format_policy__` attribute when the module was resolved. -/
def declared_policy (mo : Option ModuleInfo) : Option String :=
  match mo with
  | some m => m.trace_policy
  | none => none

/-! ## Structure of the frame merge -/

/-- The ancestry walk takes every frame up to and including the first
module-scope one. -/
theorem takeThroughModule_eq (pre : List RawFrame) (m : RawFrame)
    (post : List RawFrame) (hpre : ∀ f ∈ pre, f.co_name ≠ "<module>")
    (hm : m.co_name = "<module>") :
    takeThroughModule (pre ++ m :: post) = pre ++ [m] := by
  induction pre with
  | nil => simp [takeThroughModule, hm]
  | cons a l ih =>
      simp only [List.cons_append, takeThroughModule]
      rw [if_neg (hpre a (List.mem_cons_self a l))]
      show a :: takeThroughModule (l ++ m :: post) = a :: (l ++ [m])
      rw [ih (fun f hf => hpre f (List.mem_cons_of_mem a hf))]

/-- Shape of the merged sequence when the calling frame `c` sits below
ancestors `rest` and a module-scope frame `m`: the `pop()` discards `c`
itself, the module frame stays, and the traceback frames come first
(reversed, i.e. raise point first). -/
theorem collect_order_structure (c m : RawFrame) (rest tb : List RawFrame)
    (hc : c.co_name ≠ "<module>") (hrest : ∀ f ∈ rest, f.co_name ≠ "<module>")
    (hm : m.co_name = "<module>") :
    collect_stack_frames_order (c :: (rest ++ [m])) tb
      = tb.reverse ++ rest ++ [m] := by
  unfold collect_stack_frames_order
  have h1 : takeThroughModule (c :: (rest ++ [m])) = (c :: rest) ++ [m] := by
    have h2 : ∀ f ∈ c :: rest, f.co_name ≠ "<module>" := by
      intro f hf
      rcases List.mem_cons.mp hf with hf | hf
      · exact hf ▸ hc
      · exact hrest f hf
    simpa using takeThroughModule_eq (c :: rest) m [] h2 hm
  rw [h1]
  rw [show ((c :: rest) ++ [m]).reverse = (m :: rest.reverse) ++ [c] by simp]
  rw [List.dropLast_concat]
  simp

/-- C1: the spec claims the document holds exactly N+1 frames ordered
oldest-caller-first with the fault point last.  In the spec's own scenario
(module scope calls `a`, `a` calls `b` calls `c`, `c` raises, `a` handles
and builds) the merged sequence instead holds 4 frames, ordered most-recent
-call-first with the retained module-scope frame last. -/
theorem collect_order_scenario_counterexample :
    collect_stack_frames_order [frA, frMod] [frA, frB, frC]
        = [frC, frB, frA, frMod]
      ∧ (collect_stack_frames_order [frA, frMod] [frA, frB, frC]).length ≠ 3
      ∧ collect_stack_frames_order [frA, frMod] [frA, frB, frC]
        ≠ [frA, frB, frC]
      ∧ (collect_stack_frames_order [frA, frMod] [frA, frB, frC]).head?
        ≠ some frA := by
  refine ⟨by decide, by decide, by decide, by decide⟩

/-- C1 (amended): when the handler's calling frame `c` sits below ancestors
`rest` and the module frame `m`, and the underlying frames are distinct,
the merged sequence is the propagation frames most-recent-first followed by
`rest` and the module frame — `tb.length + rest.length + 1` frames in
total (N+2, not N+1, when `rest` is empty and the error passed through
`tb.length = N+1` frames), with no frame appearing twice (the handler's
frame, present in both walks, survives only on the traceback side because
`pop()` discards the ancestry-side copy). -/
theorem collect_order_merge_amended (c m : RawFrame) (rest tb : List RawFrame)
    (hc : c.co_name ≠ "<module>") (hrest : ∀ f ∈ rest, f.co_name ≠ "<module>")
    (hm : m.co_name = "<module>") (hnd : (tb ++ (rest ++ [m])).Nodup) :
    collect_stack_frames_order (c :: (rest ++ [m])) tb
        = tb.reverse ++ rest ++ [m]
      ∧ (collect_stack_frames_order (c :: (rest ++ [m])) tb).Nodup
      ∧ (collect_stack_frames_order (c :: (rest ++ [m])) tb).length
        = tb.length + rest.length + 1 := by
  have hs := collect_order_structure c m rest tb hc hrest hm
  refine ⟨hs, ?_, ?_⟩
  · rw [hs, List.append_assoc]
    have hperm : List.Perm (tb ++ (rest ++ [m])) (tb.reverse ++ (rest ++ [m])) :=
      List.Perm.append_right _ (List.reverse_perm tb).symm
    exact hperm.nodup hnd
  · rw [hs]
    simp only [List.length_append, List.length_reverse, List.length_cons,
      List.length_nil]

/-- Witness for the amended C1 at the spec's own scenario. -/
theorem collect_order_merge_amended_witness :
    collect_stack_frames_order (frA :: ([] ++ [frMod])) [frA, frB, frC]
        = [frA, frB, frC].reverse ++ [] ++ [frMod]
      ∧ (collect_stack_frames_order (frA :: ([] ++ [frMod])) [frA, frB, frC]).Nodup
      ∧ (collect_stack_frames_order (frA :: ([] ++ [frMod])) [frA, frB, frC]).length
        = [frA, frB, frC].length + ([] : List RawFrame).length + 1 :=
  collect_order_merge_amended frA frMod [] [frA, frB, frC] (by decide)
    (by intro f hf; cases hf) (by decide) (by decide)

/-- C7: the spec claims the ancestry walk discards the topmost module-scope
frame so that no module-scope frame reaches the collected sequence.  In the
concrete scenario the module-scope frame — which only the ancestry walk
supplies — is present in the merged output. -/
theorem collect_order_module_retained_counterexample :
    frMod ∈ collect_stack_frames_order [frA, frMod] [frA, frB, frC]
      ∧ frMod.co_name = "<module>"
      ∧ frMod ∉ [frA, frB, frC] := by
  refine ⟨by decide, by decide, by decide⟩

/-- C7 (amended): the ancestry walk stops after collecting the first
module-scope frame, but the frame `pop()` discards is the innermost one of
that walk — the handler's calling frame — not the module frame: the
module-scope frame is retained in the collected sequence, and the calling
frame (when it appears in neither the traceback nor among its proper
ancestors) is absent. -/
theorem collect_order_pop_discards_calling_frame (c m : RawFrame)
    (rest tb : List RawFrame)
    (hc : c.co_name ≠ "<module>") (hrest : ∀ f ∈ rest, f.co_name ≠ "<module>")
    (hm : m.co_name = "<module>")
    (hctb : c ∉ tb) (hcr : c ∉ rest) (hne : c ≠ m) :
    m ∈ collect_stack_frames_order (c :: (rest ++ [m])) tb
      ∧ c ∉ collect_stack_frames_order (c :: (rest ++ [m])) tb := by
  have hs := collect_order_structure c m rest tb hc hrest hm
  rw [hs]
  constructor
  · simp
  · simp [hctb, hcr, hne]

/-- Witness for the amended C7: the handler `a` delegates formatting to a
helper `h`, so the calling frame `h` appears in no other walk; the module
frame is retained and `h` is dropped. -/
theorem collect_order_pop_discards_calling_frame_witness :
    frMod ∈ collect_stack_frames_order (frH :: ([frA] ++ [frMod])) [frA, frB, frC]
      ∧ frH ∉ collect_stack_frames_order (frH :: ([frA] ++ [frMod])) [frA, frB, frC] :=
  collect_order_pop_discards_calling_frame frH frMod [frA] [frA, frB, frC]
    (by decide) (by decide) (by decide) (by decide) (by decide) (by decide)

/-! ## Context attachment and collection robustness -/

/-- Every branch of the builder step stores `frame_context` of the frame's
scope name as the trace's context. -/
theorem build_trace_step_context (o : Option String) (ex : ExInst)
    (f : FrameDetail) (m e : Int) :
    (build_trace_step o ex f m e).1.trace_context = frame_context ex f.name := by
  by_cases hp : resolve_policy o f.co_module m e = TracebackFormatPolicy.Full <;>
    cases hcl : f.code_lines <;>
      simp [build_trace_step, hp, hcl]

/-- C2 (code behavior at the failing input): the builder probes the
exception instance for an attribute literally named `"context"`
(xtraceback.py line 304), an attribute neither `EnhancedErrorMixIn`
(which stores `_contexts` and exposes a `contexts` property) nor
`enhance_exception` (which initializes `_context`) ever creates — so no
recorded context is ever attached to any frame of the document. -/
theorem create_traceback_detail_context_never_attached (cfg : TbConfig)
    (ex : ExInst) (fds : List FrameDetail)
    (h : List.lookup "context" ex.attrs = none) :
    (create_traceback_detail cfg ex fds).traces.map (fun t => t.trace_context)
      = fds.map (fun _ => none) := by
  have hfc : ∀ scope, frame_context ex scope = none := by
    intro scope
    unfold frame_context
    rw [h]
  have H : ∀ (l : List FrameDetail) (m e : Int),
      ((build_traces cfg.policy_override ex l m e).1.map (fun t => t.trace_context))
        = l.map (fun _ => none) := by
    intro l
    induction l with
    | nil => intro m e; rfl
    | cons f rest ih =>
        intro m e
        simp only [build_traces, List.map]
        rw [build_trace_step_context, hfc, ih]
  exact H fds _ _

/-- Witness for C2's lookup behavior: an instance annotated the way the
mixin design stores annotations (under `_contexts`, exposed as
`contexts`) with a matching frame named `"f"` still yields a document
whose only frame carries no context. -/
theorem create_traceback_detail_context_never_attached_witness :
    (create_traceback_detail
        { policy_override := none, max_full_display := 5, expand_first_n := 1 }
        exAnnotated [{ fdC with name := "f" }]).traces.map (fun t => t.trace_context)
      = [none] :=
  create_traceback_detail_context_never_attached _ exAnnotated
    [{ fdC with name := "f" }] (by decide)

/-- C3 (code behavior at the failing inputs): frame introspection failures
abort the whole collection instead of degrading one frame.  First input: a
raise point whose code has no on-disk source file (`<stdin>`) is processed
first, and the unconditional read of `fmt_code_lines` (xtraceback.py line
267) — a local only ever assigned inside the source-retrieval branch (line
258) — raises `NameError`.  Second input: `inspect.getsourcelines` raising
`OSError` (line 252, possible for a stale or rewritten file that still
exists) propagates, aborting the frames not yet processed. -/
theorem collect_stack_frames_aborts_on_introspection_failure :
    collect_stack_frames [frH, frMod] [frStdin] = Except.error "NameError"
      ∧ collect_stack_frames [frH, frMod] [frSrcFail, frA]
        = Except.error "OSError" := by
  refine ⟨by decide, by decide⟩

/-! ## The `Hide` policy -/

/-- When the resolved policy is anything but `Full`, the builder step emits
a source-less trace and leaves both budget counters untouched. -/
theorem build_trace_step_not_full (o : Option String) (ex : ExInst)
    (f : FrameDetail) (m e : Int)
    (h : resolve_policy o f.co_module m e ≠ TracebackFormatPolicy.Full) :
    build_trace_step o ex f m e
      = ({ origin := { file := f.filename, lineno := f.line_no, scope := f.name }
           call := render_call f, code := []
           trace_context := frame_context ex f.name }, m, e) := by
  cases hcl : f.code_lines <;> simp [build_trace_step, h, hcl]

/-- A rendered call signature is never the empty string (it always ends in
the closing parenthesis). -/
theorem render_call_length_pos (f : FrameDetail) : 0 < (render_call f).length := by
  unfold render_call
  simp only [String.length_append]
  have h1 : (")" : String).length = 1 := rfl
  omega

/-- The lines one source-less trace contributes to the rendering. -/
theorem format_frame_lines_no_code (t : TraceDetail) (hc : t.code = [])
    (hl : 0 < t.call.length) :
    format_frame_lines t
      = [ "  File " ++ t.origin.file ++ ", line " ++ toString t.origin.lineno
            ++ ", in " ++ t.origin.scope
        , "    Call " ++ t.call
        , "" ] := by
  unfold format_frame_lines
  rw [if_pos hl, hc]
  rfl

/-- C4: the spec claims a global `Hide` override leaves only the header and
banner with zero per-frame blocks.  With the override set to `Hide` a
one-frame document still renders the frame's `File` and `Call` lines: the
builder and renderer contain no path that omits a frame. -/
theorem format_hide_counterexample :
    format_traceback_detail
        (create_traceback_detail
          { policy_override := some TracebackFormatPolicy.Hide
            max_full_display := 5, expand_first_n := 1 }
          { type_name := "TestError", args_repr := ["boom"], attrs := [] } [fdC])
      = [ "TestError: boom"
        , "Traceback (most recent call first):"
        , "  File /repo/t.py, line 30, in c"
        , "    Call c()"
        , "" ]
      ∧ (format_traceback_detail
          (create_traceback_detail
            { policy_override := some TracebackFormatPolicy.Hide
              max_full_display := 5, expand_first_n := 1 }
            { type_name := "TestError", args_repr := ["boom"], attrs := [] }
            [fdC])).length ≠ 2 := by
  refine ⟨by decide, by decide⟩

/-- C4 (amended): with the global override set to `Hide`, every frame is
rendered exactly as under `Brief` — one `File` line, one `Call` line and a
blank separator per frame after the header and banner; only the source
excerpt is suppressed, never the frame. -/
theorem format_hide_renders_brief_frames (cfg : TbConfig) (ex : ExInst)
    (fds : List FrameDetail)
    (h : cfg.policy_override = some TracebackFormatPolicy.Hide) :
    format_traceback_detail (create_traceback_detail cfg ex fds)
      = (ex.type_name ++ ": " ++ String.intercalate "," ex.args_repr)
        :: "Traceback (most recent call first):"
        :: (fds.map (fun f =>
              [ "  File " ++ f.filename ++ ", line " ++ toString f.line_no
                  ++ ", in " ++ f.name
              , "    Call " ++ render_call f
              , "" ])).flatten := by
  have hpol : ∀ (mo : Option ModuleInfo) (m e : Int),
      resolve_policy (some TracebackFormatPolicy.Hide) mo m e
        = TracebackFormatPolicy.Hide := fun _ _ _ => rfl
  have H : ∀ (l : List FrameDetail) (m e : Int),
      (build_traces (some TracebackFormatPolicy.Hide) ex l m e).1
        = l.map (fun f =>
            { origin := { file := f.filename, lineno := f.line_no, scope := f.name }
              call := render_call f, code := []
              trace_context := frame_context ex f.name }) := by
    intro l
    induction l with
    | nil => intro m e; rfl
    | cons f rest ih =>
        intro m e
        simp only [build_traces, List.map]
        rw [build_trace_step_not_full _ _ _ _ _ (by rw [hpol]; decide)]
        dsimp only
        rw [ih]
  unfold format_traceback_detail create_traceback_detail
  rw [h, H, List.map_map]
  have hfun : (format_frame_lines ∘ fun f : FrameDetail =>
      ({ origin := { file := f.filename, lineno := f.line_no, scope := f.name }
         call := render_call f, code := []
         trace_context := frame_context ex f.name } : TraceDetail))
      = fun f : FrameDetail =>
          [ "  File " ++ f.filename ++ ", line " ++ toString f.line_no
              ++ ", in " ++ f.name
          , "    Call " ++ render_call f
          , "" ] := by
    funext f
    exact format_frame_lines_no_code _ rfl (render_call_length_pos f)
  rw [hfun]

/-- Witness for the amended C4 on a two-frame document. -/
theorem format_hide_renders_brief_frames_witness :
    format_traceback_detail
        (create_traceback_detail
          { policy_override := some TracebackFormatPolicy.Hide
            max_full_display := 5, expand_first_n := 1 }
          exAnnotated [fdC, { fdC with name := "b", line_no := 20 }])
      = (exAnnotated.type_name ++ ": " ++ String.intercalate "," exAnnotated.args_repr)
        :: "Traceback (most recent call first):"
        :: ([fdC, { fdC with name := "b", line_no := 20 }].map (fun f =>
              [ "  File " ++ f.filename ++ ", line " ++ toString f.line_no
                  ++ ", in " ++ f.name
              , "    Call " ++ render_call f
              , "" ])).flatten :=
  format_hide_renders_brief_frames
    { policy_override := some TracebackFormatPolicy.Hide
      max_full_display := 5, expand_first_n := 1 }
    exAnnotated [fdC, { fdC with name := "b", line_no := 20 }] rfl

/-! ## The full-display budget -/

/-- The default policy computation is `Full` only while both counters are
positive. -/
theorem base_policy_full (m e : Int)
    (h : (if e > 0 ∧ m > 0 then TracebackFormatPolicy.Full
          else TracebackFormatPolicy.Brief) = TracebackFormatPolicy.Full) :
    0 < m ∧ 0 < e := by
  by_cases hc : e > 0 ∧ m > 0
  · exact ⟨hc.2, hc.1⟩
  · rw [if_neg hc] at h
    exact absurd h (by decide)

/-- When neither the global override nor the module declaration forces
`Full`, a resolved `Full` policy can only come from the default rule, so
both counters were positive. -/
theorem resolve_policy_full_cases (o : Option String) (mo : Option ModuleInfo)
    (m e : Int) (hov : o ≠ some TracebackFormatPolicy.Full)
    (hmod : declared_policy mo ≠ some TracebackFormatPolicy.Full)
    (hfull : resolve_policy o mo m e = TracebackFormatPolicy.Full) :
    0 < m ∧ 0 < e := by
  rcases o with _ | ov
  · rcases mo with _ | mod
    · simp only [resolve_policy] at hfull
      exact base_policy_full m e hfull
    · rcases hmp : mod.trace_policy with _ | cand
      · simp only [resolve_policy, hmp] at hfull
        exact base_policy_full m e hfull
      · simp only [resolve_policy, hmp] at hfull
        by_cases hv : cand ∈ VALID_MEMBER_TRACE_POLICY
        · rw [if_pos hv] at hfull
          exact absurd (by simp [declared_policy, hmp, hfull]) hmod
        · rw [if_neg hv] at hfull
          exact base_policy_full m e hfull
  · simp only [resolve_policy] at hfull
    exact absurd (congrArg some hfull) hov

/-- One builder step never increases the full-display budget, and never
drives it negative when `Full` is not forced from outside the default
rule. -/
theorem build_trace_step_budget_bound (o : Option String) (ex : ExInst)
    (f : FrameDetail) (m e : Int) (h0 : 0 ≤ m)
    (hov : o ≠ some TracebackFormatPolicy.Full)
    (hmod : declared_policy f.co_module ≠ some TracebackFormatPolicy.Full) :
    (build_trace_step o ex f m e).2.1 ≤ m
      ∧ 0 ≤ (build_trace_step o ex f m e).2.1 := by
  by_cases hfull : resolve_policy o f.co_module m e = TracebackFormatPolicy.Full
  · obtain ⟨hm, he⟩ := resolve_policy_full_cases o f.co_module m e hov hmod hfull
    cases hcl : f.code_lines <;> simp [build_trace_step, hfull, hcl] <;> omega
  · rw [build_trace_step_not_full o ex f m e hfull]
    exact ⟨le_refl m, h0⟩

/-- C5: the spec claims the budget counter never becomes negative for every
combination of override and module policies.  With the override forcing
`Full` and six source-carrying frames against the default budget of 5, the
counter's successive values end at -1. -/
theorem budget_goes_negative_counterexample :
    budget_trace
        { policy_override := some TracebackFormatPolicy.Full
          max_full_display := 5, expand_first_n := 1 }
        { type_name := "TestError", args_repr := ["boom"], attrs := [] }
        (List.replicate 6 fdC)
      = [4, 3, 2, 1, 0, -1]
      ∧ (-1 : Int) ∈ budget_trace
          { policy_override := some TracebackFormatPolicy.Full
            max_full_display := 5, expand_first_n := 1 }
          { type_name := "TestError", args_repr := ["boom"], attrs := [] }
          (List.replicate 6 fdC)
      ∧ (-1 : Int) < 0 := by
  refine ⟨by decide, by decide, by decide⟩

/-- C5 (amended): across the frames of one build the full-display budget is
monotonically non-increasing, and it stays non-negative provided it starts
non-negative and `Full` is never forced by the global override or by a
module-declared policy (the forced-`Full` paths decrement without checking
the budget). -/
theorem budget_monotone_nonneg (cfg : TbConfig) (ex : ExInst)
    (fds : List FrameDetail) (h0 : 0 ≤ cfg.max_full_display)
    (hov : cfg.policy_override ≠ some TracebackFormatPolicy.Full)
    (hmod : ∀ f ∈ fds, declared_policy f.co_module ≠ some TracebackFormatPolicy.Full) :
    List.Chain (fun a b => b ≤ a) cfg.max_full_display (budget_trace cfg ex fds)
      ∧ (budget_trace cfg ex fds).all (fun b => decide (0 ≤ b)) = true := by
  have H : ∀ (l : List FrameDetail) (m e : Int), 0 ≤ m →
      (∀ f ∈ l, declared_policy f.co_module ≠ some TracebackFormatPolicy.Full) →
      List.Chain (fun a b => b ≤ a) m
          ((build_traces cfg.policy_override ex l m e).2)
        ∧ ((build_traces cfg.policy_override ex l m e).2).all
            (fun b => decide (0 ≤ b)) = true := by
    intro l
    induction l with
    | nil => intro m e _ _; exact ⟨List.Chain.nil, rfl⟩
    | cons f rest ih =>
        intro m e hm0 hml
        obtain ⟨hle, hnn⟩ := build_trace_step_budget_bound cfg.policy_override ex
          f m e hm0 hov (hml f (List.mem_cons_self f rest))
        obtain ⟨ihc, iha⟩ :=
          ih (build_trace_step cfg.policy_override ex f m e).2.1
            (build_trace_step cfg.policy_override ex f m e).2.2 hnn
            (fun g hg => hml g (List.mem_cons_of_mem f hg))
        simp only [build_traces]
        exact ⟨List.Chain.cons hle ihc, by simp [List.all_cons, hnn, iha]⟩
  exact H fds cfg.max_full_display cfg.expand_first_n h0 hmod

/-- Witness for the amended C5: default configuration, two frames; the
budget steps 5 → 4 → 4 and stays non-negative. -/
theorem budget_monotone_nonneg_witness :
    List.Chain (fun a b => b ≤ a) (5 : Int)
        (budget_trace
          { policy_override := none, max_full_display := 5, expand_first_n := 1 }
          exAnnotated [fdC, fdC])
      ∧ (budget_trace
          { policy_override := none, max_full_display := 5, expand_first_n := 1 }
          exAnnotated [fdC, fdC]).all (fun b => decide (0 ≤ b)) = true :=
  budget_monotone_nonneg
    { policy_override := none, max_full_display := 5, expand_first_n := 1 }
    exAnnotated [fdC, fdC] (by decide) (by decide) (by decide)

/-! ## The value renderer -/

/-- C6: the spec claims a failure in either renderer step falls back (each
step isolated) to a string naming the value's type.  A moniker probe that
raises a non-`AttributeError` instead yields the fixed `"<error>"`
sentinel: it neither names the type nor falls through to the (here
successful) `repr`. -/
theorem render_moniker_failure_counterexample :
    render_arg_value vMonikerRaises = ARG_ERROR
      ∧ ARG_ERROR ≠ "<" ++ vMonikerRaises.typeStr ++ ">"
      ∧ ARG_ERROR ≠ "sentinel-repr" := by
  refine ⟨by decide, by decide, by decide⟩

/-- C6 (amended): the renderer always returns a string and never raises;
it uses the moniker when present and readable, yields the fixed `"<error>"`
sentinel when the moniker probe raises a non-`AttributeError` (without
falling through to `repr`), and otherwise attempts `repr` with the
type-naming string as that step's fallback. -/
theorem render_arg_value_total_spec (v : PyValue) :
    render_arg_value v = render_arg_value_described v := by
  rcases v with ⟨mA, rR, tS⟩
  rcases mA with _ | r
  · cases rR <;> rfl
  · rcases r with e | s
    · cases e
      · cases rR <;> rfl
      · rfl
    · rfl

/-! ## `enhance_exception`: type mutation and the attribute-name slip -/

/-- Updating one attribute leaves lookups of every other name unchanged. -/
theorem lookup_set_assoc_ne {β : Type} (l : List (String × β)) (n nn : String)
    (v : β) (h : n ≠ nn) : List.lookup n (set_assoc l nn v) = List.lookup n l := by
  have hbeq : (n == nn) = false := beq_eq_false_iff_ne.mpr h
  induction l with
  | nil => simp [set_assoc, List.lookup, hbeq]
  | cons p rest ih =>
      by_cases hk : p.1 = nn
      · rcases p with ⟨k, w⟩
        simp only at hk
        simp [set_assoc, hk, List.lookup, hbeq]
      · rcases p with ⟨k, w⟩
        simp only at hk
        simp only [set_assoc, if_neg hk, List.lookup]
        rw [ih]

/-- `add_context` never touches the type's `__bases__`. -/
theorem add_context_type_bases (st : ExcState) (c ct l : String) :
    (add_context st c ct l).1.type_bases = st.type_bases := by
  unfold add_context
  cases List.lookup "_contexts" st.attrs <;> rfl

/-- C8: the spec's side-table design claims an annotation call never
mutates any type's shape.  `enhance_exception` on an instance of a class
not already carrying the mixin visibly rewrites that class's `__bases__`. -/
theorem enhance_mutates_bases_counterexample :
    (enhance_exception
        { type_bases := ["Exception"], attrs := [] } "f" "stuff" "L").1.type_bases
      = ["Exception", "EnhancedErrorMixIn"]
      ∧ (enhance_exception
          { type_bases := ["Exception"], attrs := [] } "f" "stuff" "L").1.type_bases
        ≠ ({ type_bases := ["Exception"], attrs := [] } : ExcState).type_bases := by
  refine ⟨by decide, by decide⟩

/-- C8 (amended): recording an annotation does mutate the type's shape:
whenever `EnhancedErrorMixIn` is absent from `type(x).__bases__`,
`enhance_exception` appends it there (and there is no instance-keyed side
table in the code). -/
theorem enhance_appends_mixin_to_bases (st : ExcState)
    (caller content label : String)
    (h : ENHANCED_ERROR_MIXIN ∉ st.type_bases) :
    (enhance_exception st caller content label).1.type_bases
      = st.type_bases ++ [ENHANCED_ERROR_MIXIN] := by
  unfold enhance_exception
  rw [if_neg h]
  rw [add_context_type_bases]
  split <;> rfl

/-- Witness for the amended C8. -/
theorem enhance_appends_mixin_to_bases_witness :
    (enhance_exception
        { type_bases := ["TestError", "Exception"], attrs := [] }
        "handler" "extra" "NOTE").1.type_bases
      = ["TestError", "Exception"] ++ [ENHANCED_ERROR_MIXIN] :=
  enhance_appends_mixin_to_bases
    { type_bases := ["TestError", "Exception"], attrs := [] }
    "handler" "extra" "NOTE" (by decide)

/-- C10: on an instance whose class provides no `_contexts` attribute,
`enhance_exception` initializes `_context` (xtraceback.py line 365) while
`add_context` immediately reads `self._contexts` (line 193), so the call
raises `AttributeError` and no annotation is recorded. -/
theorem enhance_raises_attribute_error (st : ExcState)
    (caller content label : String)
    (h : List.lookup "_contexts" st.attrs = none) :
    (enhance_exception st caller content label).2 = some "AttributeError"
      ∧ List.lookup "_contexts"
          (enhance_exception st caller content label).1.attrs = none := by
  have hgen : ∀ (s2 : ExcState), List.lookup "_contexts" s2.attrs = none →
      (add_context s2 caller content label).2 = some "AttributeError"
        ∧ List.lookup "_contexts" (add_context s2 caller content label).1.attrs
          = none := by
    intro s2 h2
    unfold add_context
    rw [h2]
    exact ⟨rfl, h2⟩
  unfold enhance_exception
  dsimp only
  refine hgen _ ?_
  have key : ∀ (s1 : ExcState), s1.attrs = st.attrs →
      List.lookup "_contexts"
        (if (List.lookup "_context" s1.attrs).isSome then s1
         else py_setattr s1 "_context" []).attrs = none := by
    intro s1 hs1
    split
    · rw [hs1]
      exact h
    · unfold py_setattr
      dsimp only
      rw [lookup_set_assoc_ne s1.attrs "_contexts" "_context" [] (by decide), hs1]
      exact h
  exact key _ (by split <;> rfl)

/-- Witness for C10. -/
theorem enhance_raises_attribute_error_witness :
    (enhance_exception { type_bases := ["Exception"], attrs := [] }
        "f" "stuff" "CONTEXT").2 = some "AttributeError"
      ∧ List.lookup "_contexts"
          (enhance_exception { type_bases := ["Exception"], attrs := [] }
            "f" "stuff" "CONTEXT").1.attrs = none :=
  enhance_raises_attribute_error { type_bases := ["Exception"], attrs := [] }
    "f" "stuff" "CONTEXT" (by decide)

/-! ## HTTP status raising -/

/-- Every formatted HTTP error message starts with the fixed prefix, the
code, the fixed infix and the reason text, followed by the optional URL
and context lines. -/
theorem format_http_error_message_shape (code : Int) (msg : String)
    (url ctx : Option String) :
    ∃ tail : String, format_http_error_message code msg url ctx
      = "HTTP Error: code="
          ++ (toString code ++ (" message=" ++ (msg ++ tail))) := by
  cases url with
  | none =>
      cases ctx with
      | none =>
          refine ⟨".", ?_⟩
          simp only [format_http_error_message, join_linesep, List.cons_append,
            List.nil_append, String.append_assoc]
      | some c =>
          refine ⟨"." ++ ("\n" ++ ("CONTEXT: " ++ c)), ?_⟩
          simp only [format_http_error_message, join_linesep, List.cons_append,
            List.nil_append, String.append_assoc]
  | some u =>
      cases ctx with
      | none =>
          refine ⟨"." ++ ("\n" ++ ("URL: " ++ u)), ?_⟩
          simp only [format_http_error_message, join_linesep, List.cons_append,
            List.nil_append, String.append_assoc]
      | some c =>
          refine ⟨"." ++ ("\n" ++ ("URL: " ++ (u ++ ("\n" ++ ("CONTEXT: " ++ c))))), ?_⟩
          simp only [format_http_error_message, join_linesep, List.cons_append,
            List.nil_append, String.append_assoc]

/-- C9: `raise_for_http_status` returns normally exactly for response codes
below 300; code 404 raises `HttpNotFoundError` carrying a message that
contains both the code and the reason text. -/
theorem raise_for_http_status_spec :
    (∀ (code : Int) (msg : String) (url ctx : Option String),
        raise_for_http_status code msg url ctx = Except.ok () ↔ code < 300)
      ∧ (∀ (msg : String) (url ctx : Option String), ∃ body : String,
          raise_for_http_status 404 msg url ctx
              = Except.error ("HttpNotFoundError", body)
            ∧ (∃ p q : String, body = p ++ "404" ++ q)
            ∧ (∃ p q : String, body = p ++ msg ++ q)) := by
  constructor
  · intro code msg url ctx
    unfold raise_for_http_status
    by_cases hc : code ≥ 300
    · rw [if_pos hc]
      exact ⟨fun habs => Except.noConfusion habs, fun hlt => absurd hlt (by omega)⟩
    · rw [if_neg hc]
      exact ⟨fun _ => by omega, fun _ => rfl⟩
  · intro msg url ctx
    have hlk : List.lookup (404 : Int) STATUS_TO_EXCEPTION_TABLE
        = some "HttpNotFoundError" := by decide
    have h404 : toString (404 : Int) = "404" := by decide
    obtain ⟨tail, htail⟩ := format_http_error_message_shape 404 msg url ctx
    rw [h404] at htail
    refine ⟨format_http_error_message 404 msg url ctx, ?_, ?_, ?_⟩
    · unfold raise_for_http_status
      rw [if_pos (by decide)]
      dsimp only
      rw [hlk]
    · exact ⟨"HTTP Error: code=", " message=" ++ (msg ++ tail),
        by rw [htail]; exact (String.append_assoc _ _ _).symm⟩
    · exact ⟨"HTTP Error: code=" ++ ("404" ++ " message="), tail,
        by rw [htail]; simp only [String.append_assoc]⟩

end MojoErrors
